import Mathlib

/-!
# Verification of the declarative request-validation engine

Shallow embedding of `boilerplate/middlewares/request_validation.py` and the
`HttpError` hierarchy of `commons/utils/http_error.py`.

Modelling conventions:
* Raw request values and configuration payloads live in a small dynamic value
  domain `Value` (strings, integers, decimal floats as exact rationals, and
  parsed dates as abstract timestamps).
* A Python expression that raises an exception is modelled by `none` in an
  `Option` result; a Python function that can return `None` as a value keeps a
  further inner `Option`.
* External collaborators (the `datetime.strptime` parser, the `json` decoder
  and the `jsonschema.Draft4Validator`) are parameters of the embedded
  functions, mirroring the library calls in the source.
* Python string methods are modelled on the ASCII fragment the component
  actually receives (`str.isdigit` is the digit test on ASCII characters).
-/

namespace Boilerplate

/-- Dynamic value domain for request parameters and configuration payloads.
Decimal float literals are modelled exactly as rationals; a parsed
`datetime` is abstracted to an integer timestamp. -/
inductive Value where
  | vStr : String → Value
  | vInt : Int → Value
  | vFloat : Rat → Value
  | vDate : Int → Value
  deriving DecidableEq, Repr

/-- Python `str(x)`. Rendering of floats and dates is a representation choice
of the model (only the string/integer cases are observed by the claims). -/
def pyStr : Value → String
  | .vStr s => s
  | .vInt n => toString n
  | .vFloat q => toString q
  | .vDate t => toString t

/-- Python truthiness of a value: empty string and numeric zero are falsy. -/
def Value.truthy : Value → Bool
  | .vStr s => s != ""
  | .vInt n => n != 0
  | .vFloat q => !(decide (q = 0))
  | .vDate _ => true

/-- Python `==` between dynamic values: numeric kinds compare numerically,
values of unrelated kinds are unequal (no exception). -/
def pyEq : Value → Value → Bool
  | .vStr a, .vStr b => a == b
  | .vInt a, .vInt b => a == b
  | .vFloat a, .vFloat b => a == b
  | .vInt a, .vFloat b => (a : Rat) == b
  | .vFloat a, .vInt b => a == (b : Rat)
  | .vDate a, .vDate b => a == b
  | _, _ => false

/-- Python `a <= b` on strings: lexicographic comparison by code point. -/
def charListLe : List Char → List Char → Bool
  | [], _ => true
  | _ :: _, [] => false
  | a :: as, b :: bs =>
    if a.toNat < b.toNat then true
    else if b.toNat < a.toNat then false
    else charListLe as bs

/-- Python `a <= b` on dynamic values; `none` models the `TypeError` raised
when the two kinds are not comparable (e.g. `int <= str`). -/
def pyLe : Value → Value → Option Bool
  | .vStr a, .vStr b => some (charListLe a.toList b.toList)
  | .vInt a, .vInt b => some (decide (a ≤ b))
  | .vFloat a, .vFloat b => some (decide (a ≤ b))
  | .vInt a, .vFloat b => some (decide ((a : Rat) ≤ b))
  | .vFloat a, .vInt b => some (decide (a ≤ (b : Rat)))
  | .vDate a, .vDate b => some (decide (a ≤ b))
  | _, _ => none

/-- Python `a >= b` on dynamic values. -/
def pyGe (a b : Value) : Option Bool := pyLe b a

/-- Regular expressions, the abstract syntax of a compiled pattern of the
external `re` module. -/
inductive Regex where
  | emp : Regex
  | eps : Regex
  | chr : Char → Regex
  | anyChar : Regex
  | alt : Regex → Regex → Regex
  | cat : Regex → Regex → Regex
  | star : Regex → Regex
  deriving DecidableEq, Repr

/-- Does the regular expression accept the empty word? -/
def Regex.nullable : Regex → Bool
  | .emp => false
  | .eps => true
  | .chr _ => false
  | .anyChar => false
  | .alt r s => r.nullable || s.nullable
  | .cat r s => r.nullable && s.nullable
  | .star _ => true

/-- Brzozowski derivative of a regular expression by one character. -/
def Regex.deriv : Regex → Char → Regex
  | .emp, _ => .emp
  | .eps, _ => .emp
  | .chr c, a => if a = c then .eps else .emp
  | .anyChar, _ => .eps
  | .alt r s, a => .alt (r.deriv a) (s.deriv a)
  | .cat r s, a =>
      if r.nullable then .alt (.cat (r.deriv a) s) (s.deriv a)
      else .cat (r.deriv a) s
  | .star r, a => .cat (r.deriv a) (.star r)

/-- Full match of a word against a regular expression. -/
def Regex.rmatch (r : Regex) (l : List Char) : Bool :=
  (l.foldl Regex.deriv r).nullable

/-- Semantics of Python `re.match(pattern, s)`: the pattern is anchored at the
start of the string only, so it succeeds exactly when some prefix of `s`
matches the pattern in full. -/
def pyMatch (r : Regex) (s : String) : Bool :=
  (List.range (s.length + 1)).any (fun k => r.rmatch (s.toList.take k))

/-- A configured regex: the pattern text stored in the rule document (used in
error messages and in truthiness tests) together with its compiled form. -/
structure PyRegex where
  pattern : String
  ast : Regex
  deriving DecidableEq, Repr

/-- Payload of a constraint (`action.value` in the configuration document):
a scalar, a `{min, max}` document, or a collection. -/
inductive ActionValue where
  | scalar : Value → ActionValue
  | range : Value → Value → ActionValue
  | set : List Value → ActionValue
  deriving DecidableEq, Repr

/-- An `action` sub-document of a parameter rule. -/
structure ActionCfg where
  actionType : String
  value : ActionValue
  deriving DecidableEq, Repr

/-- One error object of the validator: a `message` plus the optional context
keys the source attaches (`type`, `expectedRange` with stringified bounds,
`expectedValue`, `expectedValues`). -/
structure ErrObj where
  message : String
  type : Option String := none
  expectedRange : Option (String × String) := none
  expectedValue : Option ActionValue := none
  expectedValues : Option ActionValue := none
  deriving DecidableEq, Repr

/-- A parameter rule document (`Params` in the configuration store). -/
structure ParamDoc where
  name : String
  dataType : String
  regex : Option PyRegex := none
  isRequired : Bool := false
  action : Option ActionCfg := none
  format : Option String := none
  deriving DecidableEq, Repr

/-- The `BETWEEN` failure object: the expected range is stringified. -/
def betweenErrObj (name : String) (mn mx : Value) : ErrObj :=
  { message := name ++ " out of range",
    expectedRange := some (pyStr mn, pyStr mx) }

/-- `ValidateParamType.__validate_param_constraint`.

Returns `none` when the Python code would raise: comparing values of
incompatible kinds raises `TypeError`, as does building the
`GREATER_THAN`/`LESS_THAN` failure message by concatenating a non-string
threshold onto the text; a malformed payload shape (`values.get` on a
non-dict, membership in a non-collection) likewise raises. The callers
invoke this only when an `action` is configured. -/
def validate_param_constraint (doc : ParamDoc) (param_value : Value) :
    Option (List ErrObj) :=
  match doc.action with
  | none => none
  | some act =>
    if act.actionType == "BETWEEN" then
      match act.value with
      | .range mn mx =>
        match pyGe param_value mn with
        | none => none
        | some false => some [betweenErrObj doc.name mn mx]
        | some true =>
          match pyLe param_value mx with
          | none => none
          | some false => some [betweenErrObj doc.name mn mx]
          | some true => some []
      | _ => none
    else if act.actionType == "EQUALS" then
      match act.value with
      | .scalar w =>
        if pyEq param_value w then some []
        else some [{ message := doc.name ++ " incorrect value",
                     expectedValue := some act.value }]
      | _ =>
        some [{ message := doc.name ++ " incorrect value",
                expectedValue := some act.value }]
    else if act.actionType == "IN" then
      match act.value with
      | .set l =>
        if l.any (fun w => pyEq param_value w) then some []
        else some [{ message := doc.name ++ " incorrect value",
                     expectedValues := some act.value }]
      | _ => none
    else if act.actionType == "GREATER_THAN" then
      match act.value with
      | .scalar t =>
        match pyLe param_value t with
        | none => none
        | some true =>
          match t with
          | .vStr s => some [{ message := doc.name ++ " should be greater than" ++ s }]
          | _ => none
        | some false => some []
      | _ => none
    else if act.actionType == "LESS_THAN" then
      match act.value with
      | .scalar t =>
        match pyGe param_value t with
        | none => none
        | some true =>
          match t with
          | .vStr s => some [{ message := doc.name ++ " should be less than" ++ s }]
          | _ => none
        | some false => some []
      | _ => none
    else some []

/-- Python `str.isdigit` on the ASCII fragment: nonempty and every character
is a decimal digit. -/
def pyIsDigit (s : String) : Bool :=
  s != "" && s.toList.all Char.isDigit

/-- Python `int` on a digit string (only invoked after `isdigit` holds). -/
def strToNat (s : String) : Nat :=
  s.toList.foldl (fun n c => n * 10 + (c.toNat - 48)) 0

/-- Split a character list on a separator character (Python `str.split`). -/
def splitOnChar (c : Char) : List Char → List (List Char)
  | [] => [[]]
  | a :: as =>
    match splitOnChar c as with
    | [] => [[]]
    | h :: t => if a = c then [] :: h :: t else (a :: h) :: t

/-- Nonempty all-digit character list. -/
def allDigits (l : List Char) : Bool :=
  !l.isEmpty && l.all Char.isDigit

/-- The float literal shape accepted by the source pattern
`^\d+?\.\d+?$`: digits, a dot, digits (no sign, no exponent). -/
def isFloatLit (s : String) : Bool :=
  match splitOnChar '.' s.toList with
  | [a, b] => allDigits a && allDigits b
  | _ => false

/-- Digit-list value in base ten. -/
def digitsToNat (l : List Char) : Nat :=
  l.foldl (fun n c => n * 10 + (c.toNat - 48)) 0

/-- Python `float` on a `digits.digits` literal, modelled as the exact
decimal rational. -/
def parseFloatLit (s : String) : Rat :=
  match splitOnChar '.' s.toList with
  | [a, b] => ((digitsToNat a : Int) : Rat) + ((digitsToNat b : Int) : Rat) / ((10 : Rat) ^ b.length)
  | _ => 0

/-- Hexadecimal digit test. -/
def isHexChar (c : Char) : Bool :=
  c.isDigit || (decide ('a' ≤ c) && decide (c ≤ 'f')) || (decide ('A' ≤ c) && decide (c ≤ 'F'))

/-- `bson.objectid.ObjectId.is_valid` on a string input (external library):
exactly 24 hexadecimal characters. -/
def objectIdValid (s : String) : Bool :=
  s.length == 24 && s.toList.all isHexChar

/-- Python `str` applied to an optional configuration entry (`str(None)` is
the literal `"None"`). -/
def pyStrFmt : Option String → String
  | some f => f
  | none => "None"

/-- `ValidateParamType.__validate_integer_params`: the value's string form
must consist solely of digits; a passing value is coerced with `int` before
the optional constraint runs. -/
def validate_integer_params (doc : ParamDoc) (value : Value) : Option (List ErrObj) :=
  if pyIsDigit (pyStr value) then
    match doc.action with
    | some _ => validate_param_constraint doc (.vInt (strToNat (pyStr value)))
    | none => some []
  else
    some [{ message := doc.name ++ " must be of integer type" }]

/-- `ValidateParamType.__validate_float_params`. -/
def validate_float_params (doc : ParamDoc) (value : Value) : Option (List ErrObj) :=
  if isFloatLit (pyStr value) then
    match doc.action with
    | some _ => validate_param_constraint doc (.vFloat (parseFloatLit (pyStr value)))
    | none => some []
  else
    some [{ message := doc.name ++ " must be of float type" }]

/-- `ValidateParamType.__validate_object_id_params`: the raw value (not its
string form) is forwarded to the constraint. -/
def validate_object_id_params (doc : ParamDoc) (value : Value) : Option (List ErrObj) :=
  if objectIdValid (pyStr value) then
    match doc.action with
    | some _ => validate_param_constraint doc value
    | none => some []
  else
    some [{ message := doc.name ++ " must be of type ObjectId" }]

/-- `ValidateParamType.__validate_string_params`: a non-string value is a
type error; a configured (truthy, i.e. nonempty) regex must `re.match` the
value before the constraint is consulted. -/
def validate_string_params (doc : ParamDoc) (value : Value) : Option (List ErrObj) :=
  match value with
  | .vStr s =>
    match doc.regex with
    | some r =>
      if r.pattern != "" && !(pyMatch r.ast s) then
        some [{ message := doc.name ++ " must follow regex " ++ r.pattern }]
      else
        match doc.action with
        | some _ => validate_param_constraint doc value
        | none => some []
    | none =>
      match doc.action with
      | some _ => validate_param_constraint doc value
      | none => some []
  | _ => some [{ message := doc.name ++ " must be of string type" }]

/-- `ValidateParamType.__validate_date_params`. The `datetime.strptime`
parser is an external collaborator: it is passed in as a function from the
value's string form and the format string to an optional timestamp (`none`
models `ValueError`). Building the failure message dereferences the rule's
`format` entry, so a missing format raises there (modelled by `none`). -/
def validate_date_params (strptime : String → String → Option Int)
    (doc : ParamDoc) (value : Value) : Option (List ErrObj) :=
  match strptime (pyStr value) (pyStrFmt doc.format) with
  | none =>
    match doc.format with
    | some f => some [{ message := doc.name ++ " must be of date type with format " ++ f }]
    | none => none
  | some t =>
    match doc.action with
    | some _ => validate_param_constraint doc (.vDate t)
    | none => some []

/-- `ValidateParamType.validate`: dispatch on the rule's `dataType` through
the handler table; an unknown tag yields the single unknown-data-type
error. -/
def ValidateParamType_validate (strptime : String → String → Option Int)
    (doc : ParamDoc) (value : Value) : Option (List ErrObj) :=
  if doc.dataType == "STRING" then validate_string_params doc value
  else if doc.dataType == "INTEGER" then validate_integer_params doc value
  else if doc.dataType == "OBJECT_ID" then validate_object_id_params doc value
  else if doc.dataType == "FLOAT" then validate_float_params doc value
  else if doc.dataType == "DATE" then validate_date_params strptime doc value
  else some [{ message := doc.name ++ " has unknown data type: " ++ doc.dataType }]

/-- The information `RequestValidationMiddleware.__call__` extracts from the
Django request object. `request_body` is the raw byte payload; `none` models
the `{}` placeholder the middleware substitutes for a falsy (empty) body. -/
structure RequestInfo where
  url_parameters : List (String × Value)
  query_parameters : List (String × List String)
  request_body : Option (List Nat)
  route_name : String
  method : String

/-- First binding of a key in an association list (a Python `dict.get`). -/
def alistLookup (l : List (String × Value)) (k : String) : Option Value :=
  (l.find? (fun p => p.1 == k)).map (fun p => p.2)

/-- First binding of a key in the query-parameter dictionary. -/
def qLookup (l : List (String × List String)) (k : String) : Option (List String) :=
  (l.find? (fun p => p.1 == k)).map (fun p => p.2)

/-- Extraction of the raw value for one rule inside `validate_params`:
URL parameters come from the resolver's keyword arguments (`None` when the
key is absent); query parameters take the first entry of the value list,
defaulting the whole list to `[""]` when the key is absent (indexing an
empty list would raise, modelled by the outer `none`); any other
`param_type` leaves the value as `None`. -/
def extract_value (ri : RequestInfo) (param_type : String) (name : String) :
    Option (Option Value) :=
  if param_type == "urlParams" then
    some (alistLookup ri.url_parameters name)
  else if param_type == "queryParams" then
    match (qLookup ri.query_parameters name).getD [""] with
    | [] => none
    | s :: _ => some (some (.vStr s))
  else
    some none

/-- Truthiness of the extracted value (`if not value` / `if value`). -/
def valueTruthy : Option Value → Bool
  | none => false
  | some v => v.truthy

/-- The missing-required-parameter error object, message text verbatim from
the source (including the `manadatory` misspelling), tagged with the rule's
`dataType` under the `type` key. -/
def mandatoryError (doc : ParamDoc) : ErrObj :=
  { message := doc.name ++ " param is manadatory",
    type := some doc.dataType }

/-- The per-rule loop of `validate_params`: for each rule, extract the raw
value; a falsy value with `isRequired` contributes the mandatory error; a
truthy value is run through `ValidateParamType.validate` and its errors are
appended. `none` propagates an exception. -/
def validate_params_loop (strptime : String → String → Option Int)
    (ri : RequestInfo) (param_type : String) : List ParamDoc → Option (List ErrObj)
  | [] => some []
  | doc :: rest =>
    match extract_value ri param_type doc.name with
    | none => none
    | some ov =>
      let mand : List ErrObj :=
        if !(valueTruthy ov) && doc.isRequired then [mandatoryError doc] else []
      let cur : Option (List ErrObj) :=
        match ov with
        | some v => if v.truthy then ValidateParamType_validate strptime doc v else some []
        | none => some []
      match cur with
      | none => none
      | some curErrs =>
        match validate_params_loop strptime ri param_type rest with
        | none => none
        | some restErrs => some (mand ++ curErrs ++ restErrs)

/-- `validate_params`: returns the collected error list, or Python `None`
(inner `none`) when no rule produced an error. -/
def validate_params (strptime : String → String → Option Int)
    (param_schema : List ParamDoc) (ri : RequestInfo) (param_type : String) :
    Option (Option (List ErrObj)) :=
  match validate_params_loop strptime ri param_type param_schema with
  | none => none
  | some response => some (if response.isEmpty then none else some response)

/-- JSON documents (decoded request bodies and body schemas). -/
inductive JsonVal where
  | null : JsonVal
  | bool : Bool → JsonVal
  | num : Rat → JsonVal
  | str : String → JsonVal
  | arr : List JsonVal → JsonVal
  | obj : List (String × JsonVal) → JsonVal

/-- Python truthiness of a JSON document (an empty schema dict is falsy). -/
def JsonVal.truthy : JsonVal → Bool
  | .null => false
  | .bool b => b
  | .num q => !(decide (q = 0))
  | .str s => s != ""
  | .arr l => !l.isEmpty
  | .obj l => !l.isEmpty

/-- `validate_json_body`: the external `Draft4Validator` (passed in as the
sorted list of violation messages for a schema and a document) supplies the
errors; an empty collection is returned as Python `None`. -/
def validate_json_body (draft4 : JsonVal → JsonVal → List String)
    (body : JsonVal) (schema : JsonVal) : Option (List String) :=
  let errors := draft4 schema body
  if errors.isEmpty then none else some errors

/-- One entry of the `requestBody` error bucket: the invalid-body case stores
an error object, the schema-violation case stores a bare message string. -/
inductive BodyErr where
  | obj : ErrObj → BodyErr
  | msg : String → BodyErr
  deriving DecidableEq, Repr

/-- The `"Invalid request body."` error object. -/
def invalidBodyErr : ErrObj := { message := "Invalid request body." }

/-- UTF-8 decoding plus `json.loads` of the raw body, through the external
decoder: the `{}` placeholder (`none` body) raises `AttributeError` on
`.decode`, which the orchestrator's `except Exception` also catches. -/
def decode_body (jsonLoads : List Nat → Option JsonVal) :
    Option (List Nat) → Option JsonVal
  | none => none
  | some bs => jsonLoads bs

/-- The body part of `request_validator`: on any decoding failure the status
is the single invalid-body error and the schema is never consulted; on
success the status is the schema validator's outcome. -/
def body_status (jsonLoads : List Nat → Option JsonVal)
    (draft4 : JsonVal → JsonVal → List String)
    (body : Option (List Nat)) (schema : JsonVal) : Option (List BodyErr) :=
  match decode_body jsonLoads body with
  | none => some [.obj invalidBodyErr]
  | some data =>
    match validate_json_body draft4 data schema with
    | none => none
    | some msgs => some (msgs.map .msg)

/-- A `RequestValidationConfig` document of the configuration store. -/
structure RequestConfig where
  routeName : String
  method : String
  isActive : Bool
  queryParams : List ParamDoc
  urlParams : List ParamDoc
  requestBodySchema : Option JsonVal

/-- `DefaultManager.get_one` with the orchestrator's query
`{routeName, isActive: true, method}`: the first matching document of the
store, or `None`. -/
def get_one (store : List RequestConfig) (route_name method : String) :
    Option RequestConfig :=
  (store.filter
    (fun c => c.routeName == route_name && c.isActive && c.method == method)).head?

/-- The orchestrator's error map: each key is present exactly when it was
assigned a truthy (nonempty) status. -/
structure ResponseMap where
  queryParams : Option (List ErrObj)
  urlParams : Option (List ErrObj)
  requestBody : Option (List BodyErr)
  deriving DecidableEq, Repr

/-- Truthiness of the error map (`if response:`). -/
def responseTruthy (r : ResponseMap) : Bool :=
  r.queryParams.isSome || r.urlParams.isSome || r.requestBody.isSome

/-- The wire envelope assembled by `HttpError.__init__`: `statusCode`, the
error `message`, and the optional `code` and `errors` keys (each key is
attached only when the argument is not `None`). -/
structure ErrorEnvelope where
  statusCode : Int
  message : String
  code : Option Int
  errors : Option ResponseMap
  deriving DecidableEq, Repr

/-- `HttpError.__init__`. -/
def httpErrorResponse (status_code : Int) (message : String)
    (error_code : Option Int) (errors : Option ResponseMap) : ErrorEnvelope :=
  { statusCode := status_code, message := message, code := error_code, errors := errors }

/-- Default message of the `BadRequest` constructor. -/
def badRequestDefaultMessage : String := "The request is invalid. Please try again."

/-- The `BadRequest` exception's envelope (HTTP 400). -/
def badRequest (message : String) (error_code : Option Int)
    (errors : Option ResponseMap) : ErrorEnvelope :=
  httpErrorResponse 400 message error_code errors

/-- Truthiness of a status that is Python `None` or a list. -/
def optListTruthy {α : Type} : Option (List α) → Bool
  | none => false
  | some l => !l.isEmpty

/-- Keep a status only when it is truthy (the `if status:` guard before a
bucket is written into the response map). -/
def keepTruthy {α : Type} (s : Option (List α)) : Option (List α) :=
  if optListTruthy s then s else none

/-- Assembly of the response map from the three statuses. -/
def assembled (qstat ustat : Option (List ErrObj)) (bstat : Option (List BodyErr)) :
    ResponseMap :=
  { queryParams := keepTruthy qstat,
    urlParams := keepTruthy ustat,
    requestBody := keepTruthy bstat }

/-- The query-parameter status of `request_validator`: skipped (Python
`None`) when the rule-set has no (truthy) `queryParams` list. -/
def query_param_status (strptime : String → String → Option Int)
    (cfg : RequestConfig) (ri : RequestInfo) : Option (Option (List ErrObj)) :=
  if cfg.queryParams.isEmpty then some none
  else validate_params strptime cfg.queryParams ri "queryParams"

/-- The URL-parameter status of `request_validator`. -/
def url_param_status (strptime : String → String → Option Int)
    (cfg : RequestConfig) (ri : RequestInfo) : Option (Option (List ErrObj)) :=
  if cfg.urlParams.isEmpty then some none
  else validate_params strptime cfg.urlParams ri "urlParams"

/-- The request-body status of `request_validator`: only computed when a
truthy body schema is configured. -/
def request_body_status (jsonLoads : List Nat → Option JsonVal)
    (draft4 : JsonVal → JsonVal → List String)
    (cfg : RequestConfig) (ri : RequestInfo) : Option (List BodyErr) :=
  match cfg.requestBodySchema with
  | some sch => if sch.truthy then body_status jsonLoads draft4 ri.request_body sch else none
  | none => none

/-- `request_validator`: look up the single active rule-set for
`(routeName, method)`; when none exists return `True` untouched; otherwise
run the three validators in source order, assemble the response map from the
truthy statuses, and raise `BadRequest(errors=response)` (carrying the
default message) when the map is nonempty. The outer `none` propagates an
exception raised inside a validator. -/
def request_validator (strptime : String → String → Option Int)
    (jsonLoads : List Nat → Option JsonVal)
    (draft4 : JsonVal → JsonVal → List String)
    (store : List RequestConfig) (ri : RequestInfo) :
    Option (Except ErrorEnvelope Bool) :=
  match get_one store ri.route_name ri.method with
  | none => some (.ok true)
  | some cfg =>
    match query_param_status strptime cfg ri with
    | none => none
    | some qstat =>
      match url_param_status strptime cfg ri with
      | none => none
      | some ustat =>
        let bstat := request_body_status jsonLoads draft4 cfg ri
        let response := assembled qstat ustat bstat
        if responseTruthy response then
          some (.error (badRequest badRequestDefaultMessage none (some response)))
        else
          some (.ok true)

/-- A kept bucket is present exactly when its status was truthy. -/
theorem keepTruthy_isSome {α : Type} (s : Option (List α)) :
    (keepTruthy s).isSome = optListTruthy s := by
  cases s with
  | none => rfl
  | some l => cases l <;> simp [keepTruthy, optListTruthy]

/-- A kept bucket never holds an empty error list. -/
theorem keepTruthy_ne_nil {α : Type} (s : Option (List α)) (l : List α)
    (h : keepTruthy s = some l) : l ≠ [] := by
  cases s with
  | none => simp [keepTruthy, optListTruthy] at h
  | some m =>
    cases m with
    | nil => simp [keepTruthy, optListTruthy] at h
    | cons a t =>
      simp [keepTruthy, optListTruthy] at h
      simp [← h]

/-- C2: a request whose `(routeName, method)` has no active rule in the store
skips validation entirely: the orchestrator raises nothing and returns
`True`, whatever the request's parameters and body are. -/
theorem c2_no_active_rule_skips_validation
    (strptime : String → String → Option Int)
    (jsonLoads : List Nat → Option JsonVal)
    (draft4 : JsonVal → JsonVal → List String)
    (store : List RequestConfig) (ri : RequestInfo)
    (h : get_one store ri.route_name ri.method = none) :
    request_validator strptime jsonLoads draft4 store ri = some (.ok true) := by
  unfold request_validator
  rw [h]

/-- Witness for C2: a store whose only rule is for another route. -/
theorem c2_witness :
    request_validator (fun _ _ => none) (fun _ => none) (fun _ _ => [])
      [⟨"other", "GET", true, [], [], none⟩]
      ⟨[], [], none, "getUser", "GET"⟩ = some (.ok true) :=
  c2_no_active_rule_skips_validation _ _ _ _ _ rfl

/-- C3: a required parameter rule for which no value is extracted emits
exactly the `"<name> param is manadatory"` error (misspelling preserved)
tagged with the rule's `dataType` under `type`, and nothing else happens for
that rule — in particular no type coercion and no constraint evaluation,
whatever `dataType`, `regex` and `action` the rule carries. -/
theorem c3_required_missing_param_mandatory_error
    (strptime : String → String → Option Int)
    (ri : RequestInfo) (param_type : String) (doc : ParamDoc)
    (hv : extract_value ri param_type doc.name = some none)
    (hreq : doc.isRequired = true) :
    validate_params strptime [doc] ri param_type = some (some [mandatoryError doc]) ∧
    (mandatoryError doc).message = doc.name ++ " param is manadatory" ∧
    (mandatoryError doc).type = some doc.dataType := by
  refine ⟨?_, rfl, rfl⟩
  simp [validate_params, validate_params_loop, hv, valueTruthy, hreq]

/-- Witness for C3: a required `OBJECT_ID` rule with a constraint, but the
URL parameter is absent from the request. -/
theorem c3_witness :
    validate_params (fun _ _ => none)
      [{ name := "id", dataType := "OBJECT_ID", isRequired := true,
         action := some ⟨"EQUALS", .scalar (.vInt 3)⟩ }]
      ⟨[], [], none, "r", "GET"⟩ "urlParams"
    = some (some [{ message := "id param is manadatory", type := some "OBJECT_ID" }]) :=
  (c3_required_missing_param_mandatory_error (fun _ _ => none)
    ⟨[], [], none, "r", "GET"⟩ "urlParams"
    { name := "id", dataType := "OBJECT_ID", isRequired := true,
      action := some ⟨"EQUALS", .scalar (.vInt 3)⟩ } rfl rfl).1

/-- C10: a value that is extracted but falsy (the empty string in
particular, which is also what an absent query-parameter key yields) is
handled exactly like an absent value: the mandatory error is emitted when
the rule is required, and no type, regex or constraint validation runs on
the value in any case. -/
theorem c10_falsy_value_treated_absent
    (strptime : String → String → Option Int)
    (ri : RequestInfo) (param_type : String) (doc : ParamDoc) (v : Value)
    (hv : extract_value ri param_type doc.name = some (some v))
    (ht : v.truthy = false) :
    validate_params strptime [doc] ri param_type =
      some (if doc.isRequired then some [mandatoryError doc] else none) ∧
    (qLookup ri.query_parameters doc.name = none →
      extract_value ri "queryParams" doc.name = some (some (.vStr ""))) := by
  constructor
  · cases hreq : doc.isRequired <;>
      simp [validate_params, validate_params_loop, hv, valueTruthy, ht, hreq]
  · intro habs
    simp [extract_value, habs]

/-- Witness for C10: a required `INTEGER` rule with a constraint receives an
explicitly supplied empty query-parameter value and still reports only the
mandatory error. -/
theorem c10_witness :
    validate_params (fun _ _ => none)
      [{ name := "q", dataType := "INTEGER", isRequired := true,
         action := some ⟨"BETWEEN", .range (.vInt 1) (.vInt 9)⟩ }]
      ⟨[], [("q", [""])], none, "r", "GET"⟩ "queryParams"
    = some (some [{ message := "q param is manadatory", type := some "INTEGER" }]) :=
  (c10_falsy_value_treated_absent (fun _ _ => none)
    ⟨[], [("q", [""])], none, "r", "GET"⟩ "queryParams"
    { name := "q", dataType := "INTEGER", isRequired := true,
      action := some ⟨"BETWEEN", .range (.vInt 1) (.vInt 9)⟩ } (.vStr "") rfl rfl).1

/-- C5: under `dataType = "INTEGER"` a raw value passes the type check
exactly when its string form is nonempty and consists solely of digits
(Python `str.isdigit`); a failing value yields the single
`"<name> must be of integer type"` error, and a passing value is coerced
with `int` before the optional constraint is evaluated. Concretely,
`"42"` passes while `"-1"` and `"4.2"` fail the digit check. -/
theorem c5_integer_digit_check
    (strptime : String → String → Option Int) (doc : ParamDoc) (v : Value)
    (hdt : doc.dataType = "INTEGER") :
    (pyIsDigit (pyStr v) = false →
      ValidateParamType_validate strptime doc v =
        some [{ message := doc.name ++ " must be of integer type" }]) ∧
    (pyIsDigit (pyStr v) = true →
      ValidateParamType_validate strptime doc v =
        (match doc.action with
         | some _ => validate_param_constraint doc (.vInt (strToNat (pyStr v)))
         | none => some [])) ∧
    (pyIsDigit (pyStr v) = ((pyStr v) != "" && (pyStr v).toList.all Char.isDigit)) ∧
    pyIsDigit "42" = true ∧ pyIsDigit "-1" = false ∧ pyIsDigit "4.2" = false := by
  refine ⟨?_, ?_, rfl, by decide, by decide, by decide⟩
  · intro h
    simp [ValidateParamType_validate, hdt, validate_integer_params, h]
  · intro h
    simp [ValidateParamType_validate, hdt, validate_integer_params, h]

/-- Witness for C5: with an `EQUALS 42` constraint configured, `"-1"` and
`"4.2"` each produce only the integer type error, while `"42"` is coerced to
the integer `42` and then satisfies the constraint. -/
theorem c5_witness :
    ValidateParamType_validate (fun _ _ => none)
      { name := "n", dataType := "INTEGER",
        action := some ⟨"EQUALS", .scalar (.vInt 42)⟩ } (.vStr "-1")
      = some [{ message := "n must be of integer type" }] ∧
    ValidateParamType_validate (fun _ _ => none)
      { name := "n", dataType := "INTEGER",
        action := some ⟨"EQUALS", .scalar (.vInt 42)⟩ } (.vStr "4.2")
      = some [{ message := "n must be of integer type" }] ∧
    ValidateParamType_validate (fun _ _ => none)
      { name := "n", dataType := "INTEGER",
        action := some ⟨"EQUALS", .scalar (.vInt 42)⟩ } (.vStr "42")
      = some [] := by
  refine ⟨?_, ?_, ?_⟩
  · exact (c5_integer_digit_check (fun _ _ => none)
      { name := "n", dataType := "INTEGER",
        action := some ⟨"EQUALS", .scalar (.vInt 42)⟩ } (.vStr "-1") rfl).1 rfl
  · exact (c5_integer_digit_check (fun _ _ => none)
      { name := "n", dataType := "INTEGER",
        action := some ⟨"EQUALS", .scalar (.vInt 42)⟩ } (.vStr "4.2") rfl).1 rfl
  · have h := (c5_integer_digit_check (fun _ _ => none)
      { name := "n", dataType := "INTEGER",
        action := some ⟨"EQUALS", .scalar (.vInt 42)⟩ } (.vStr "42") rfl).2.1 rfl
    exact h.trans rfl

/-- C7: a `BETWEEN` constraint with payload `{min, max}` passes exactly when
`min <= value` and `value <= max` (both comparisons inclusive); on failure
the single error carries the expected range with both bounds converted to
strings. The hypotheses require the two Python comparisons to be defined. -/
theorem c7_between_inclusive
    (doc : ParamDoc) (v mn mx : Value) (b1 b2 : Bool)
    (hact : doc.action = some ⟨"BETWEEN", .range mn mx⟩)
    (h1 : pyGe v mn = some b1) (h2 : pyLe v mx = some b2) :
    validate_param_constraint doc v =
      some (if b1 && b2 then [] else [betweenErrObj doc.name mn mx]) ∧
    (validate_param_constraint doc v = some [] ↔ (b1 = true ∧ b2 = true)) ∧
    (betweenErrObj doc.name mn mx).expectedRange = some (pyStr mn, pyStr mx) := by
  have hmain : validate_param_constraint doc v =
      some (if b1 && b2 then [] else [betweenErrObj doc.name mn mx]) := by
    cases b1 <;> cases b2 <;> simp [validate_param_constraint, hact, h1, h2]
  refine ⟨hmain, ?_, rfl⟩
  rw [hmain]
  cases b1 <;> cases b2 <;> simp [betweenErrObj]

/-- Witness for C7: with `{min: 1, max: 10}` the coerced value `5` passes
and `11` fails with the stringified expected range `{"1", "10"}`. -/
theorem c7_witness :
    validate_param_constraint
      { name := "n", dataType := "INTEGER",
        action := some ⟨"BETWEEN", .range (.vInt 1) (.vInt 10)⟩ } (.vInt 5)
      = some [] ∧
    validate_param_constraint
      { name := "n", dataType := "INTEGER",
        action := some ⟨"BETWEEN", .range (.vInt 1) (.vInt 10)⟩ } (.vInt 11)
      = some [{ message := "n out of range", expectedRange := some ("1", "10") }] := by
  constructor
  · exact (c7_between_inclusive
      { name := "n", dataType := "INTEGER",
        action := some ⟨"BETWEEN", .range (.vInt 1) (.vInt 10)⟩ }
      (.vInt 5) (.vInt 1) (.vInt 10) true true rfl rfl rfl).1
  · have h := (c7_between_inclusive
      { name := "n", dataType := "INTEGER",
        action := some ⟨"BETWEEN", .range (.vInt 1) (.vInt 10)⟩ }
      (.vInt 11) (.vInt 1) (.vInt 10) true false rfl rfl rfl).1
    rw [h]
    decide

/-- C8 (amended): `GREATER_THAN` passes exactly when the coerced value is
strictly greater than the threshold and `LESS_THAN` exactly when it is
strictly less; on failure, when the threshold is a string, the single error
message concatenates the fixed text and the threshold with no separating
space; a failing comparison against a non-string threshold raises a
`TypeError` while building that message and produces no error list. -/
theorem c8_comparison_constraints (doc : ParamDoc) (v t : Value) :
    (doc.action = some ⟨"GREATER_THAN", .scalar t⟩ →
      ∀ b, pyLe v t = some b →
        validate_param_constraint doc v =
          (if b then
             (match t with
              | .vStr s => some [{ message := doc.name ++ " should be greater than" ++ s }]
              | _ => none)
           else some [])) ∧
    (doc.action = some ⟨"LESS_THAN", .scalar t⟩ →
      ∀ b, pyGe v t = some b →
        validate_param_constraint doc v =
          (if b then
             (match t with
              | .vStr s => some [{ message := doc.name ++ " should be less than" ++ s }]
              | _ => none)
           else some [])) := by
  constructor
  · intro hact b hb
    cases b <;> simp [validate_param_constraint, hact, hb]
  · intro hact b hb
    cases b <;> simp [validate_param_constraint, hact, hb]

/-- Counterexample for C8 as stated: with the numeric threshold `5`, the
value `3` makes the `GREATER_THAN` constraint fail (`3 <= 5` holds), yet no
single-error list is produced — concatenating the integer threshold onto the
message text raises `TypeError` (modelled by `none`). -/
theorem c8_counterexample_typeerror :
    pyLe (Value.vInt 3) (Value.vInt 5) = some true ∧
    validate_param_constraint
      { name := "p", dataType := "INTEGER",
        action := some ⟨"GREATER_THAN", .scalar (.vInt 5)⟩ } (.vInt 3) = none := by
  exact ⟨by decide, by decide⟩

/-- Witness for C8: with string thresholds both failure messages concatenate
the threshold without a separating space, and a strictly greater value
passes. -/
theorem c8_witness :
    validate_param_constraint
      { name := "p", dataType := "STRING",
        action := some ⟨"GREATER_THAN", .scalar (.vStr "b")⟩ } (.vStr "a")
      = some [{ message := "p should be greater thanb" }] ∧
    validate_param_constraint
      { name := "p", dataType := "STRING",
        action := some ⟨"GREATER_THAN", .scalar (.vStr "b")⟩ } (.vStr "c")
      = some [] ∧
    validate_param_constraint
      { name := "p", dataType := "STRING",
        action := some ⟨"LESS_THAN", .scalar (.vStr "b")⟩ } (.vStr "c")
      = some [{ message := "p should be less thanb" }] := by
  refine ⟨?_, ?_, ?_⟩
  · exact (c8_comparison_constraints
      { name := "p", dataType := "STRING",
        action := some ⟨"GREATER_THAN", .scalar (.vStr "b")⟩ }
      (.vStr "a") (.vStr "b")).1 rfl true (by decide)
  · exact (c8_comparison_constraints
      { name := "p", dataType := "STRING",
        action := some ⟨"GREATER_THAN", .scalar (.vStr "b")⟩ }
      (.vStr "c") (.vStr "b")).1 rfl false (by decide)
  · exact (c8_comparison_constraints
      { name := "p", dataType := "STRING",
        action := some ⟨"LESS_THAN", .scalar (.vStr "b")⟩ }
      (.vStr "c") (.vStr "b")).2 rfl true (by decide)

/-- C9: when UTF-8 JSON decoding of the raw body fails (including the
middleware's `{}` placeholder for an empty body), the request-body status is
exactly the single `"Invalid request body."` error and the schema validator
is never consulted (the status is the same for every schema validator); only
when decoding succeeds is the status the schema validator's outcome. -/
theorem c9_body_decode_failure
    (jsonLoads : List Nat → Option JsonVal)
    (draft4 : JsonVal → JsonVal → List String)
    (body : Option (List Nat)) (schema : JsonVal) :
    (decode_body jsonLoads body = none →
      body_status jsonLoads draft4 body schema = some [BodyErr.obj invalidBodyErr] ∧
      invalidBodyErr.message = "Invalid request body." ∧
      (∀ draft4B : JsonVal → JsonVal → List String,
        body_status jsonLoads draft4B body schema =
          body_status jsonLoads draft4 body schema)) ∧
    (∀ data, decode_body jsonLoads body = some data →
      body_status jsonLoads draft4 body schema =
        (match validate_json_body draft4 data schema with
         | none => none
         | some msgs => some (msgs.map BodyErr.msg))) := by
  constructor
  · intro h
    refine ⟨?_, rfl, ?_⟩
    · simp [body_status, h]
    · intro draft4B
      simp [body_status, h]
  · intro data h
    simp [body_status, h]

/-- Witness for C9: an undecodable body (the decoder rejects it) against a
nonempty schema yields exactly the invalid-body error. -/
theorem c9_witness :
    body_status (fun _ => none) (fun _ _ => ["violation"]) (some [123])
      (.obj [("name", .str "x")]) = some [BodyErr.obj invalidBodyErr] :=
  ((c9_body_decode_failure (fun _ => none) (fun _ _ => ["violation"]) (some [123])
    (.obj [("name", .str "x")])).1 rfl).1

/-- C6 (amended): for a `STRING` rule with a configured (nonempty) regex, a
string value passes the regex check exactly when the regex matches at the
start of the value — i.e. some prefix of the value matches it in full
(Python `re.match` anchors only at the start, not at the end); on failure
the single `"<name> must follow regex <regex>"` error is emitted and the
constraint is not checked; on success the constraint branch runs. -/
theorem c6_regex_prefix_match
    (strptime : String → String → Option Int) (doc : ParamDoc)
    (r : PyRegex) (s : String)
    (hdt : doc.dataType = "STRING") (hr : doc.regex = some r)
    (hp : r.pattern ≠ "") :
    (pyMatch r.ast s = false →
      ValidateParamType_validate strptime doc (.vStr s) =
        some [{ message := doc.name ++ " must follow regex " ++ r.pattern }]) ∧
    (pyMatch r.ast s = true →
      ValidateParamType_validate strptime doc (.vStr s) =
        (match doc.action with
         | some _ => validate_param_constraint doc (.vStr s)
         | none => some [])) ∧
    (pyMatch r.ast s = true ↔ ∃ k, Regex.rmatch r.ast (s.toList.take k) = true) := by
  refine ⟨?_, ?_, ?_⟩
  · intro h
    simp [ValidateParamType_validate, hdt, validate_string_params, hr, hp, h]
  · intro h
    simp [ValidateParamType_validate, hdt, validate_string_params, hr, hp, h]
  · constructor
    · intro h
      rw [pyMatch, List.any_eq_true] at h
      obtain ⟨k, _, hm⟩ := h
      exact ⟨k, hm⟩
    · rintro ⟨k, hk⟩
      rw [pyMatch, List.any_eq_true]
      by_cases hks : k ≤ s.length
      · exact ⟨k, List.mem_range.mpr (by omega), hk⟩
      · refine ⟨s.length, List.mem_range.mpr (by omega), ?_⟩
        have hlen : s.toList.length = s.length := rfl
        have h2 : s.toList.take k = s.toList := List.take_of_length_le (by omega)
        have h3 : s.toList.take s.length = s.toList := List.take_of_length_le (by omega)
        rw [h3, ← h2]
        exact hk

/-- Counterexample for C6 as stated: with the configured regex `a`, the
value `"ab"` passes the regex check (the validator emits no error; the
constraint branch runs and, with no action, yields the empty error list)
even though the entire value does not match the regex — only its one-letter
prefix does. -/
theorem c6_fullmatch_counterexample :
    ValidateParamType_validate (fun _ _ => none)
      { name := "p", dataType := "STRING", regex := some ⟨"a", .chr 'a'⟩ }
      (.vStr "ab") = some [] ∧
    Regex.rmatch (.chr 'a') ("ab".toList) = false ∧
    pyMatch (.chr 'a') "ab" = true := by
  exact ⟨rfl, by decide, by decide⟩

/-- Witness for C6: the value `"xb"` has no prefix matching the regex `a`,
so the single regex error is emitted, and the characterization of
`re.match` as a prefix match holds at this input. -/
theorem c6_witness :
    ValidateParamType_validate (fun _ _ => none)
      { name := "p", dataType := "STRING", regex := some ⟨"a", .chr 'a'⟩,
        action := some ⟨"EQUALS", .scalar (.vStr "xb")⟩ }
      (.vStr "xb") = some [{ message := "p must follow regex a" }] :=
  (c6_regex_prefix_match (fun _ _ => none)
    { name := "p", dataType := "STRING", regex := some ⟨"a", .chr 'a'⟩,
      action := some ⟨"EQUALS", .scalar (.vStr "xb")⟩ }
    ⟨"a", .chr 'a'⟩ "xb" rfl rfl (by decide)).1 (by decide)

/-- The five data types with a registered type validator. -/
def knownDataType (dt : String) : Bool :=
  dt == "STRING" || dt == "INTEGER" || dt == "OBJECT_ID" || dt == "FLOAT" || dt == "DATE"

/-- Statement of the per-type type check of `ValidateParamType`: string
instance test for `STRING`, digit test for `INTEGER`, hex-identifier test
for `OBJECT_ID`, float-literal test for `FLOAT`, and `strptime` success for
`DATE`. -/
def typeCheckFails (strptime : String → String → Option Int)
    (doc : ParamDoc) (v : Value) : Bool :=
  if doc.dataType == "STRING" then
    (match v with | .vStr _ => false | _ => true)
  else if doc.dataType == "INTEGER" then !(pyIsDigit (pyStr v))
  else if doc.dataType == "OBJECT_ID" then !(objectIdValid (pyStr v))
  else if doc.dataType == "FLOAT" then !(isFloatLit (pyStr v))
  else if doc.dataType == "DATE" then (strptime (pyStr v) (pyStrFmt doc.format)).isNone
  else false

/-- The per-type type-mismatch error object. -/
def typeMismatchError (doc : ParamDoc) : ErrObj :=
  if doc.dataType == "STRING" then { message := doc.name ++ " must be of string type" }
  else if doc.dataType == "INTEGER" then { message := doc.name ++ " must be of integer type" }
  else if doc.dataType == "OBJECT_ID" then { message := doc.name ++ " must be of type ObjectId" }
  else if doc.dataType == "FLOAT" then { message := doc.name ++ " must be of float type" }
  else { message := doc.name ++ " must be of date type with format " ++ pyStrFmt doc.format }

/-- The `STRING`-only regex check (the second gate before constraints). -/
def regexCheckFails (doc : ParamDoc) (v : Value) : Bool :=
  if doc.dataType == "STRING" then
    (match v, doc.regex with
     | .vStr s, some r => r.pattern != "" && !(pyMatch r.ast s)
     | _, _ => false)
  else false

/-- The typed value each validator hands to the constraint evaluator:
`int` coercion for `INTEGER`, `float` for `FLOAT`, the parsed date for
`DATE`, and the raw value for `STRING` and `OBJECT_ID`. -/
def coercedValue (strptime : String → String → Option Int)
    (doc : ParamDoc) (v : Value) : Value :=
  if doc.dataType == "INTEGER" then .vInt (strToNat (pyStr v))
  else if doc.dataType == "FLOAT" then .vFloat (parseFloatLit (pyStr v))
  else if doc.dataType == "DATE" then .vDate ((strptime (pyStr v) (pyStrFmt doc.format)).getD 0)
  else v

/-- C4: for each of the five data types, a failed type check makes the
validator return exactly the single type-mismatch error — whatever
constraint is configured, it is never evaluated; and the constraint
evaluator is invoked (on the coerced value) only once the type check (and,
for `STRING`, the regex check) has passed. For `DATE` the rule must carry a
`format` entry, otherwise building the failure message itself raises. -/
theorem c4_constraint_only_after_type_check
    (strptime : String → String → Option Int) (doc : ParamDoc) (v : Value)
    (hknown : knownDataType doc.dataType = true)
    (hfmt : doc.dataType = "DATE" → doc.format.isSome = true) :
    (typeCheckFails strptime doc v = true →
      ValidateParamType_validate strptime doc v = some [typeMismatchError doc]) ∧
    (typeCheckFails strptime doc v = false → regexCheckFails doc v = false →
      ∀ act, doc.action = some act →
        ValidateParamType_validate strptime doc v =
          validate_param_constraint doc (coercedValue strptime doc v)) := by
  obtain ⟨nm, dt, rgx, req, act0, fmt⟩ := doc
  simp only [knownDataType, Bool.or_eq_true, beq_iff_eq] at hknown
  rcases hknown with ((((h | h) | h) | h) | h) <;> subst h
  · -- STRING
    constructor
    · intro hf
      cases v <;>
        simp_all [typeCheckFails, ValidateParamType_validate, validate_string_params,
          typeMismatchError]
    · intro h1 h2 act hact
      cases v with
      | vStr s =>
        cases rgx with
        | none =>
          simp_all [ValidateParamType_validate, validate_string_params, coercedValue]
        | some r =>
          have hre : (r.pattern != "" && !(pyMatch r.ast s)) = false := by
            simpa [regexCheckFails] using h2
          simp_all [ValidateParamType_validate, validate_string_params, coercedValue]
      | vInt n => simp [typeCheckFails] at h1
      | vFloat q => simp [typeCheckFails] at h1
      | vDate t => simp [typeCheckFails] at h1
  · -- INTEGER
    constructor
    · intro hf
      have hd : pyIsDigit (pyStr v) = false := by simpa [typeCheckFails] using hf
      simp [ValidateParamType_validate, validate_integer_params, hd, typeMismatchError]
    · intro h1 h2 act hact
      have hd : pyIsDigit (pyStr v) = true := by simpa [typeCheckFails] using h1
      have hact2 : act0 = some act := hact
      simp [ValidateParamType_validate, validate_integer_params, hd, hact2, coercedValue]
  · -- OBJECT_ID
    constructor
    · intro hf
      have hd : objectIdValid (pyStr v) = false := by simpa [typeCheckFails] using hf
      simp [ValidateParamType_validate, validate_object_id_params, hd, typeMismatchError]
    · intro h1 h2 act hact
      have hd : objectIdValid (pyStr v) = true := by simpa [typeCheckFails] using h1
      have hact2 : act0 = some act := hact
      simp [ValidateParamType_validate, validate_object_id_params, hd, hact2, coercedValue]
  · -- FLOAT
    constructor
    · intro hf
      have hd : isFloatLit (pyStr v) = false := by simpa [typeCheckFails] using hf
      simp [ValidateParamType_validate, validate_float_params, hd, typeMismatchError]
    · intro h1 h2 act hact
      have hd : isFloatLit (pyStr v) = true := by simpa [typeCheckFails] using h1
      have hact2 : act0 = some act := hact
      simp [ValidateParamType_validate, validate_float_params, hd, hact2, coercedValue]
  · -- DATE
    have hfs := hfmt rfl
    cases fmt with
    | none => simp at hfs
    | some f =>
      constructor
      · intro hf
        have hd : strptime (pyStr v) f = none := by
          rw [← Option.isNone_iff_eq_none]
          simpa [typeCheckFails, pyStrFmt] using hf
        simp [ValidateParamType_validate, validate_date_params, hd, typeMismatchError,
          pyStrFmt]
      · intro h1 h2 act hact
        have hd : (strptime (pyStr v) f).isNone = false := by
          simpa [typeCheckFails, pyStrFmt] using h1
        have hact2 : act0 = some act := hact
        cases hst : strptime (pyStr v) f with
        | none => rw [hst] at hd; simp at hd
        | some t =>
          simp [ValidateParamType_validate, validate_date_params, hst, hact2, coercedValue,
            pyStrFmt]

/-- Witness for C4: a `FLOAT` rule with a constraint rejects `"abc"` with
only the float type error, and an `OBJECT_ID` rule with an `IN` constraint
hands the raw 24-hex value over to the constraint evaluator, which
accepts it. -/
theorem c4_witness :
    ValidateParamType_validate (fun _ _ => none)
      { name := "n", dataType := "FLOAT",
        action := some ⟨"BETWEEN", .range (.vFloat 1) (.vFloat 2)⟩ }
      (.vStr "abc") = some [{ message := "n must be of float type" }] ∧
    ValidateParamType_validate (fun _ _ => none)
      { name := "n", dataType := "OBJECT_ID",
        action := some ⟨"IN", .set [.vStr "aaaabbbbccccddddeeeeffff"]⟩ }
      (.vStr "aaaabbbbccccddddeeeeffff") = some [] := by
  constructor
  · exact (c4_constraint_only_after_type_check (fun _ _ => none)
      { name := "n", dataType := "FLOAT",
        action := some ⟨"BETWEEN", .range (.vFloat 1) (.vFloat 2)⟩ }
      (.vStr "abc") (by decide) (by decide)).1 (by decide)
  · have h := (c4_constraint_only_after_type_check (fun _ _ => none)
      { name := "n", dataType := "OBJECT_ID",
        action := some ⟨"IN", .set [.vStr "aaaabbbbccccddddeeeeffff"]⟩ }
      (.vStr "aaaabbbbccccddddeeeeffff") (by decide) (by decide)).2 (by decide) (by decide)
      ⟨"IN", .set [.vStr "aaaabbbbccccddddeeeeffff"]⟩ rfl
    exact h.trans rfl

/-- C1 (amended): for a request with an active route rule, the orchestrator
raises a structured bad-request failure — `statusCode` 400 and the
`BadRequest` default message `"The request is invalid. Please try again."`
(no message argument is passed at the raise site; the docstring's
`"Request validation failed"` never reaches the wire) — whose `errors` map
contains exactly those of the keys `"urlParams"`, `"queryParams"`,
`"requestBody"` whose validator produced a nonempty error list, if and only
if at least one of the three validators produced an error; otherwise the
request proceeds unmodified (`True` is returned). The hypotheses name the
three validator statuses and require the parameter validators not to raise. -/
theorem c1_orchestrator_badrequest_envelope
    (strptime : String → String → Option Int)
    (jsonLoads : List Nat → Option JsonVal)
    (draft4 : JsonVal → JsonVal → List String)
    (store : List RequestConfig) (ri : RequestInfo) (cfg : RequestConfig)
    (qstat ustat : Option (List ErrObj)) (bstat : Option (List BodyErr))
    (resp : ResponseMap)
    (hcfg : get_one store ri.route_name ri.method = some cfg)
    (hq : query_param_status strptime cfg ri = some qstat)
    (hu : url_param_status strptime cfg ri = some ustat)
    (hb : request_body_status jsonLoads draft4 cfg ri = bstat)
    (hresp : assembled qstat ustat bstat = resp) :
    (responseTruthy resp = true →
      request_validator strptime jsonLoads draft4 store ri =
        some (.error (badRequest badRequestDefaultMessage none (some resp)))) ∧
    (responseTruthy resp = false →
      request_validator strptime jsonLoads draft4 store ri = some (.ok true)) ∧
    ((badRequest badRequestDefaultMessage none (some resp)).statusCode = 400 ∧
      (badRequest badRequestDefaultMessage none (some resp)).message =
        "The request is invalid. Please try again." ∧
      (badRequest badRequestDefaultMessage none (some resp)).errors = some resp) ∧
    (responseTruthy resp =
      (optListTruthy qstat || optListTruthy ustat || optListTruthy bstat)) ∧
    (resp.queryParams.isSome = optListTruthy qstat ∧
      resp.urlParams.isSome = optListTruthy ustat ∧
      resp.requestBody.isSome = optListTruthy bstat) ∧
    ((∀ l, resp.queryParams = some l → l ≠ []) ∧
      (∀ l, resp.urlParams = some l → l ≠ []) ∧
      (∀ l, resp.requestBody = some l → l ≠ [])) := by
  subst hresp
  subst hb
  refine ⟨?_, ?_, ⟨rfl, rfl, rfl⟩, ?_, ?_, ?_⟩
  · intro h
    simp [request_validator, hcfg, hq, hu, h]
  · intro h
    simp [request_validator, hcfg, hq, hu, h]
  · simp [responseTruthy, assembled, keepTruthy_isSome]
  · exact ⟨keepTruthy_isSome qstat, keepTruthy_isSome ustat,
      keepTruthy_isSome (request_body_status jsonLoads draft4 cfg ri)⟩
  · exact ⟨fun l hl => keepTruthy_ne_nil _ l hl,
      fun l hl => keepTruthy_ne_nil _ l hl,
      fun l hl => keepTruthy_ne_nil _ l hl⟩

/-- Counterexample for C1 as stated: a request failing validation under an
active rule is rejected with the `BadRequest` default message
`"The request is invalid. Please try again."`, not with
`"Request validation failed"` as the claim (and the source docstring)
state. -/
theorem c1_claimed_message_counterexample :
    request_validator (fun _ _ => none) (fun _ => none) (fun _ _ => [])
      [⟨"getUser", "GET", true, [],
        [{ name := "id", dataType := "INTEGER", isRequired := true }], none⟩]
      ⟨[("id", .vStr "abc")], [], none, "getUser", "GET"⟩
    = some (.error ⟨400, "The request is invalid. Please try again.", none,
        some ⟨none, some [{ message := "id must be of integer type" }], none⟩⟩) ∧
    "The request is invalid. Please try again." ≠ "Request validation failed" := by
  exact ⟨rfl, by decide⟩

/-- Witness for C1: a matching active rule with one required URL parameter
that the request omits produces the 400 envelope with the default message
and exactly the `urlParams` key; the same pipeline with the parameter
supplied and valid passes through. -/
theorem c1_witness :
    request_validator (fun _ _ => none) (fun _ => none) (fun _ _ => [])
      [⟨"getUser", "GET", true, [],
        [{ name := "id", dataType := "STRING", isRequired := true }], none⟩]
      ⟨[], [], none, "getUser", "GET"⟩
    = some (.error (badRequest badRequestDefaultMessage none (some
        ⟨none, some [{ message := "id param is manadatory", type := some "STRING" }],
          none⟩))) ∧
    request_validator (fun _ _ => none) (fun _ => none) (fun _ _ => [])
      [⟨"getUser", "GET", true, [],
        [{ name := "id", dataType := "STRING", isRequired := true }], none⟩]
      ⟨[("id", .vStr "x")], [], none, "getUser", "GET"⟩
    = some (.ok true) := by
  constructor
  · exact (c1_orchestrator_badrequest_envelope (fun _ _ => none) (fun _ => none)
      (fun _ _ => [])
      [⟨"getUser", "GET", true, [],
        [{ name := "id", dataType := "STRING", isRequired := true }], none⟩]
      ⟨[], [], none, "getUser", "GET"⟩
      ⟨"getUser", "GET", true, [],
        [{ name := "id", dataType := "STRING", isRequired := true }], none⟩
      none (some [{ message := "id param is manadatory", type := some "STRING" }]) none
      ⟨none, some [{ message := "id param is manadatory", type := some "STRING" }], none⟩
      rfl rfl rfl rfl rfl).1 rfl
  · exact (c1_orchestrator_badrequest_envelope (fun _ _ => none) (fun _ => none)
      (fun _ _ => [])
      [⟨"getUser", "GET", true, [],
        [{ name := "id", dataType := "STRING", isRequired := true }], none⟩]
      ⟨[("id", .vStr "x")], [], none, "getUser", "GET"⟩
      ⟨"getUser", "GET", true, [],
        [{ name := "id", dataType := "STRING", isRequired := true }], none⟩
      none none none ⟨none, none, none⟩
      rfl rfl rfl rfl rfl).2.1 rfl

end Boilerplate
